import Mathlib

/-!
# Budget Planner backend — verification of spec claims

Shallow embedding of the Budget Planner API (`src/main.py`, `src/schemas.py`).
Documents of the underlying store are modelled as association lists from field
names to JSON-like values; the storage helpers `create_document` and
`get_documents` (declared in the missing `database` module) are modelled from
the spec (§4.2).  Pydantic schema validation is modelled as total functions
from raw payloads (optional fields) to `Option` of the validated record.
Calendar dates are abstracted by their ISO text.
-/

namespace BudgetPlanner

/-- A JSON-like value stored in a document.  `num` carries a rational standing
for the Python float, `dateVal` a date/datetime identified by its ISO text,
`oid` a store-generated object identifier identified by its hex text. -/
inductive Value where
  | str (s : String)
  | int (n : Int)
  | num (q : ℚ)
  | dateVal (iso : String)
  | oid (hex : String)
  | null
deriving DecidableEq, Repr

/-- A stored document: an association list from field names to values. -/
abbrev Doc := List (String × Value)

/-- Python's `str(x)` on the values we store (used for `str(d.pop("_id"))`). -/
def Value.pyStr : Value → String
  | .str s => s
  | .int n => toString n
  | .num q => toString q
  | .dateVal iso => iso
  | .oid hex => hex
  | .null => "None"

/-- The serialization step of the list handlers: a date/datetime value is
replaced by its ISO text (`v.isoformat()`); every other value is unchanged. -/
def Value.dateToStr : Value → Value
  | .dateVal iso => .str iso
  | v => v

/-- Remove every binding of key `k` from a document (`d.pop(k)`; documents
have unique keys, so at most one binding is removed in practice). -/
def removeKey (d : Doc) (k : String) : Doc :=
  d.filter (fun p => p.1 != k)

/-- Map a function over the values of a document, keeping the keys. -/
def mapVals (f : Value → Value) (d : Doc) : Doc :=
  d.map (fun p => (p.1, f p.2))

/-- The normalization performed by every list handler on each returned
document: rename `_id` to a textual `id` (appended as a fresh key, as the
Python dict update does), then convert date/datetime values to ISO text. -/
def normalizeDoc (d : Doc) : Doc :=
  let d₁ :=
    match List.lookup "_id" d with
    | some v => removeKey d "_id" ++ [("id", Value.str v.pyStr)]
    | none => d
  mapVals Value.dateToStr d₁

/-- Modelled from the spec: `get_documents` submits an exact-match filter —
each provided field must equal the stored value. -/
def matchesFilter (filt : Doc) (d : Doc) : Bool :=
  filt.all (fun p => List.lookup p.1 d == some p.2)

/-- Modelled from the spec: `get_documents(collection_name, filter, limit)`
from the missing `database` module — returns at most `limit` matching
documents of the collection, in store order. -/
def get_documents (coll : List Doc) (filt : Doc) (limit : Int) : List Doc :=
  (coll.filter (matchesFilter filt)).take limit.toNat

/-- Modelled from the spec: `create_document(collection_name, record)` from
the missing `database` module — serializes the validated record, persists it
under a store-generated unique identifier, and returns that identifier as
text.  The fresh identifier is passed explicitly. -/
def create_document (coll : List Doc) (payload : Doc) (newId : String) :
    List Doc × String :=
  (coll ++ [("_id", Value.oid newId) :: payload], newId)

/-! ## Schemas (`src/schemas.py`) -/

/-- `Transaction` (schemas.py lines 34–43): type is the literal "expense" or
"income" with default "expense", amount is a float constrained `gt=0`,
category and note are optional, date is a required calendar date. -/
structure Transaction where
  type : String
  amount : ℚ
  category : Option String
  note : Option String
  date : String
deriving DecidableEq, Repr

/-- A raw transaction payload before pydantic validation; `none` marks an
absent field. -/
structure RawTransaction where
  type : Option String
  amount : Option ℚ
  category : Option String
  note : Option String
  date : Option String
deriving DecidableEq, Repr

/-- Pydantic validation of a `Transaction` payload: `type` defaults to
"expense" and must be one of the two literals, `amount` is required and must
be strictly positive, `date` is required. -/
def Transaction.validate (r : RawTransaction) : Option Transaction :=
  if r.type.getD "expense" = "expense" ∨ r.type.getD "expense" = "income" then
    match r.amount, r.date with
    | some a, some d =>
        if 0 < a then
          some ⟨r.type.getD "expense", a, r.category, r.note, d⟩
        else none
    | _, _ => none
  else none

/-- An optional string serialized into a document field (`None` → null). -/
def optStr : Option String → Value
  | some s => .str s
  | none => .null

/-- The document produced by serializing a validated transaction
(`model_dump` order of schemas.py). -/
def Transaction.serialize (t : Transaction) : Doc :=
  [("type", .str t.type), ("amount", .num t.amount),
   ("category", optStr t.category), ("note", optStr t.note),
   ("date", .dateVal t.date)]

/-- `Budget` (schemas.py lines 22–31): month in 1–12, year in 2000–3000,
amount `ge=0`, optional category. -/
structure Budget where
  month : Int
  year : Int
  amount : ℚ
  category : Option String
deriving DecidableEq, Repr

/-- A raw budget payload before pydantic validation. -/
structure RawBudget where
  month : Option Int
  year : Option Int
  amount : Option ℚ
  category : Option String
deriving DecidableEq, Repr

/-- Pydantic validation of a `Budget` payload: month, year and amount are
required with their declared ranges; category is optional. -/
def Budget.validate (r : RawBudget) : Option Budget :=
  match r.month, r.year, r.amount with
  | some m, some y, some a =>
      if 1 ≤ m ∧ m ≤ 12 ∧ 2000 ≤ y ∧ y ≤ 3000 ∧ 0 ≤ a then
        some ⟨m, y, a, r.category⟩
      else none
  | _, _, _ => none

/-- `Category` (schemas.py lines 13–19): required name, optional color. -/
structure Category where
  name : String
  color : Option String
deriving DecidableEq, Repr

/-- A raw category payload before pydantic validation. -/
structure RawCategory where
  name : Option String
  color : Option String
deriving DecidableEq, Repr

/-- Pydantic validation of a `Category` payload: name is required, color is
optional and kept as given (no default string). -/
def Category.validate (r : RawCategory) : Option Category :=
  r.name.map (fun n => ⟨n, r.color⟩)

/-- The document produced by serializing a validated category. -/
def Category.serialize (c : Category) : Doc :=
  [("name", .str c.name), ("color", optStr c.color)]

/-- The document produced by serializing a validated budget. -/
def Budget.serialize (b : Budget) : Doc :=
  [("month", .int b.month), ("year", .int b.year), ("amount", .num b.amount),
   ("category", optStr b.category)]

/-! ## HTTP handlers (`src/main.py`) -/

/-- The filter dictionary built by `list_transactions` (main.py lines
96–100): `category` and `tx_type` are added only when truthy, i.e. present
and non-empty (`if category:` / `if tx_type:`). -/
def tx_filter (category : Option String) (txType : Option String) : Doc :=
  (match category with
   | some c => if c = "" then [] else [("category", Value.str c)]
   | none => []) ++
  (match txType with
   | some t => if t = "" then [] else [("type", Value.str t)]
   | none => [])

/-- Body of `list_transactions` (main.py lines 89–109): query the
transaction collection with the built filter and limit, then normalize each
returned document. -/
def list_transactions (coll : List Doc) (limit : Int)
    (category : Option String) (txType : Option String) : List Doc :=
  (get_documents coll (tx_filter category txType) limit).map normalizeDoc

/-- The `^(expense|income)$` pattern constraint on the `tx_type` query
parameter (main.py line 93); an absent parameter passes. -/
def tx_type_ok : Option String → Bool
  | some t => t = "expense" || t = "income"
  | none => true

/-- FastAPI query validation of `list_transactions` parameters (main.py
lines 90–93): `limit` defaults to 50 and must lie in 1–200; `tx_type`, when
present, must match `^(expense|income)$`.  `none` is a 422 validation
error. -/
def list_transactions_endpoint (coll : List Doc) (limitQ : Option Int)
    (category : Option String) (txType : Option String) :
    Option (List Doc) :=
  if 1 ≤ limitQ.getD 50 ∧ limitQ.getD 50 ≤ 200 ∧ tx_type_ok txType = true
  then some (list_transactions coll (limitQ.getD 50) category txType)
  else none

/-- A request's query string: assignments of text values to parameter
names. -/
def qs_get (qs : List (String × String)) (k : String) : Option String :=
  List.lookup k qs

/-- `GET /api/transactions` at the query-string level.  FastAPI binds each
query parameter by the handler's argument name, here `limit`, `category`
and `tx_type` (main.py lines 90–93 declare no alias); unknown query keys
are ignored.  A `limit` value that does not parse as an integer is a
validation error. -/
def list_transactions_http (coll : List Doc)
    (qs : List (String × String)) : Option (List Doc) :=
  match qs_get qs "limit" with
  | some s =>
      match s.toInt? with
      | some n =>
          list_transactions_endpoint coll (some n) (qs_get qs "category")
            (qs_get qs "tx_type")
      | none => none
  | none =>
      list_transactions_endpoint coll none (qs_get qs "category")
        (qs_get qs "tx_type")

/-- Body of `create_transaction` (main.py lines 80–86) on a validated
payload: persist the serialized record and return the generated id. -/
def create_transaction (coll : List Doc) (t : Transaction) (newId : String) :
    List Doc × String :=
  create_document coll t.serialize newId

/-- `POST /api/transactions` including pydantic body validation: on a
validation failure the handler is never entered and the store is unchanged
(`none` id); otherwise the record is persisted. -/
def create_transaction_endpoint (coll : List Doc) (r : RawTransaction)
    (newId : String) : List Doc × Option String :=
  match Transaction.validate r with
  | some t => ((create_transaction coll t newId).1, some newId)
  | none => (coll, none)

/-- The filter dictionary built by `list_budgets` (main.py lines 130–136):
each of `month`, `year`, `category` is added whenever it is not `None` —
including an empty-string category. -/
def budget_filter (month year : Option Int) (category : Option String) :
    Doc :=
  (match month with | some m => [("month", Value.int m)] | none => []) ++
  (match year with | some y => [("year", Value.int y)] | none => []) ++
  (match category with
   | some c => [("category", Value.str c)]
   | none => [])

/-- Body of `list_budgets` (main.py lines 127–144). -/
def list_budgets (coll : List Doc) (month year : Option Int)
    (category : Option String) (limit : Int) : List Doc :=
  (get_documents coll (budget_filter month year category) limit).map
    normalizeDoc

/-- The `limit` parameter of `GET /api/budgets` (main.py line 128): a plain
`int = 100` with no `Query` constraint — any integer is accepted and the
only effect of absence is the default 100. -/
def budgets_limit (limitQ : Option Int) : Int :=
  limitQ.getD 100

/-- `GET /api/budgets`: no validation beyond type decoding; the limit is
forwarded unchanged to the storage query. -/
def list_budgets_endpoint (coll : List Doc) (month year : Option Int)
    (category : Option String) (limitQ : Option Int) : List Doc :=
  list_budgets coll month year category (budgets_limit limitQ)

/-- `POST /api/budgets` including pydantic body validation. -/
def create_budget_endpoint (coll : List Doc) (r : RawBudget)
    (newId : String) : List Doc × Option String :=
  match Budget.validate r with
  | some b => ((create_document coll b.serialize newId).1, some newId)
  | none => (coll, none)

/-- Body of `list_categories` (main.py lines 162–172): empty filter. -/
def list_categories (coll : List Doc) (limit : Int) : List Doc :=
  (get_documents coll [] limit).map normalizeDoc

/-- The `limit` parameter of `GET /api/categories` (main.py line 163): a
plain `int = 100` with no `Query` constraint. -/
def categories_limit (limitQ : Option Int) : Int :=
  limitQ.getD 100

/-- `GET /api/categories`: no validation; the limit is forwarded unchanged
to the storage query. -/
def list_categories_endpoint (coll : List Doc) (limitQ : Option Int) :
    List Doc :=
  list_categories coll (categories_limit limitQ)

/-- `POST /api/categories` including pydantic body validation. -/
def create_category_endpoint (coll : List Doc) (r : RawCategory)
    (newId : String) : List Doc × Option String :=
  match Category.validate r with
  | some c => ((create_document coll c.serialize newId).1, some newId)
  | none => (coll, none)

/-! ## Diagnostics endpoint (`GET /test`, main.py lines 28–56) -/

/-- The state of the module-level `db` handle as observed by `/test`: its
`name` attribute when it has one, and the outcome of
`list_collection_names()` — either the collection names or the raised
exception's message. -/
structure DbHandle where
  name : Option String
  listCollectionNames : Except String (List String)

/-- The JSON body returned by `GET /test`. -/
structure TestResponse where
  backend : String
  database : String
  databaseUrl : Option String
  databaseName : Option String
  connectionStatus : String
  collections : List String
deriving DecidableEq, Repr

/-- `test_database` (main.py lines 28–56): builds the response dict,
fills in availability fields when `db` is not `None`, samples up to 10
collection names, and turns a raised storage exception into an in-body
message truncated to 80 characters.  The handler never raises, so the HTTP
status is always 200 (first component). -/
def test_database (db : Option DbHandle) (databaseUrlSet : Bool) :
    Nat × TestResponse :=
  let base : TestResponse :=
    { backend := "✅ Running"
      database := "❌ Not Available"
      databaseUrl := none
      databaseName := none
      connectionStatus := "Not Connected"
      collections := [] }
  match db with
  | some h =>
      let filled : TestResponse :=
        { base with
          database := "✅ Available"
          databaseUrl :=
            some (if databaseUrlSet then "✅ Set" else "❌ Not Set")
          databaseName :=
            some (match h.name with
                  | some n => n
                  | none => "✅ Connected")
          connectionStatus := "Connected" }
      match h.listCollectionNames with
      | Except.ok cs =>
          (200, { filled with
                    collections := cs.take 10
                    database := "✅ Connected & Working" })
      | Except.error e =>
          (200, { filled with
                    database := "⚠️ Connected but Error: " ++ e.take 80 })
  | none =>
      (200, { base with database := "⚠️ Available but not initialized" })

/-- The document a client sees for a stored transaction after the list
handler's normalization: the payload fields, the date as ISO text, and the
generated textual `id` appended. -/
def Transaction.listedDoc (t : Transaction) (newId : String) : Doc :=
  [("type", .str t.type), ("amount", .num t.amount),
   ("category", optStr t.category), ("note", optStr t.note),
   ("date", .str t.date), ("id", .str newId)]

/-- The document a client sees for a stored category after the list
handler's normalization. -/
def Category.listedDoc (c : Category) (newId : String) : Doc :=
  [("name", .str c.name), ("color", optStr c.color), ("id", .str newId)]

/-! ## Helper lemmas on documents -/

theorem lookup_mapVals (f : Value → Value) (k : String) (d : Doc) :
    List.lookup k (mapVals f d) = (List.lookup k d).map f := by
  induction d with
  | nil => rfl
  | cons p tl ih =>
      obtain ⟨k', v⟩ := p
      simp only [mapVals, List.map_cons, List.lookup_cons]
      cases h : (k == k') <;> simp_all [mapVals]

theorem lookup_append (k : String) (l₁ l₂ : Doc) :
    List.lookup k (l₁ ++ l₂) =
      (List.lookup k l₁).or (List.lookup k l₂) := by
  induction l₁ with
  | nil => simp
  | cons p tl ih =>
      obtain ⟨k', v⟩ := p
      simp only [List.cons_append, List.lookup_cons]
      cases h : (k == k') <;> simp_all

theorem lookup_removeKey_ne (d : Doc) (k k' : String) (h : k ≠ k') :
    List.lookup k (removeKey d k') = List.lookup k d := by
  induction d with
  | nil => rfl
  | cons p tl ih =>
      obtain ⟨k₀, v⟩ := p
      simp only [removeKey, List.filter_cons] at ih ⊢
      by_cases h₀ : k₀ = k'
      · subst h₀
        have hkk : (k == k₀) = false := by simp [h]
        simp [List.lookup_cons, hkk, ih]
      · have hne : (k₀ != k') = true := by simp [h₀]
        rw [if_pos hne]
        simp only [List.lookup_cons]
        cases hk : (k == k₀) <;> simp [ih]

/-- Looking a key up after the list-handler normalization, for any key other
than the store identifier `_id` and the synthesized `id`. -/
theorem lookup_normalizeDoc (d : Doc) (k : String)
    (h₁ : k ≠ "_id") (h₂ : k ≠ "id") :
    List.lookup k (normalizeDoc d) =
      (List.lookup k d).map Value.dateToStr := by
  unfold normalizeDoc
  cases hid : List.lookup "_id" d with
  | none => simp [lookup_mapVals]
  | some v =>
      simp only [lookup_mapVals]
      rw [lookup_append, lookup_removeKey_ne d k "_id" h₁]
      have hkid : (k == "id") = false := by simp [h₂]
      have : List.lookup k [("id", Value.str v.pyStr)] = none := by
        simp [List.lookup_cons, hkid]
      rw [this, Option.or_none]

/-- Every field of a satisfied exact-match filter is present in the stored
document with exactly the filter's value. -/
theorem matchesFilter_lookup {filt d : Doc} {k : String} {v : Value}
    (hm : matchesFilter filt d = true) (hk : (k, v) ∈ filt) :
    List.lookup k d = some v := by
  simp only [matchesFilter, List.all_eq_true] at hm
  have := hm (k, v) hk
  simpa [beq_iff_eq] using this

theorem mem_take_append_last {α : Type} (l : List α) (x : α) (n : Nat)
    (h : l.length < n) : x ∈ (l ++ [x]).take n := by
  rw [List.take_append_eq_append_take,
      List.take_of_length_le (Nat.le_of_lt h)]
  have h1 : ([x] : List α).length ≤ n - l.length := by
    simp; omega
  rw [List.take_of_length_le h1]
  simp

theorem dateToStr_optStr (o : Option String) :
    (optStr o).dateToStr = optStr o := by
  cases o <;> rfl

theorem string_take_length_le (s : String) (n : Nat) :
    (s.take n).length ≤ n := by
  show (s.take n).data.length ≤ n
  rw [String.data_take]
  exact List.length_take_le _ _

/-- Normalizing the freshly persisted transaction document yields exactly
the client-visible `listedDoc`. -/
theorem normalizeDoc_created_transaction (t : Transaction) (newId : String) :
    normalizeDoc (("_id", Value.oid newId) :: t.serialize) =
      t.listedDoc newId := by
  cases t with
  | mk ty a cat note dt =>
      cases cat <;> cases note <;>
        simp [normalizeDoc, Transaction.serialize, Transaction.listedDoc,
          removeKey, mapVals, Value.pyStr, Value.dateToStr, List.lookup,
          optStr]

/-- Normalizing the freshly persisted category document yields exactly the
client-visible `listedDoc`. -/
theorem normalizeDoc_created_category (c : Category) (newId : String) :
    normalizeDoc (("_id", Value.oid newId) :: c.serialize) =
      c.listedDoc newId := by
  cases c with
  | mk nm col =>
      cases col <;>
        simp [normalizeDoc, Category.serialize, Category.listedDoc,
          removeKey, mapVals, Value.pyStr, Value.dateToStr, List.lookup,
          optStr]

/-! ## Claim theorems -/

/-- C2: for every transaction creation request whose amount is ≤ 0,
pydantic validation rejects the payload (schemas.py line 40, `gt=0`), so the
handler body is never entered: no storage operation runs and the collection
is unchanged, with no id returned. -/
theorem c2_nonpositive_amount_rejected_before_storage
    (coll : List Doc) (r : RawTransaction) (newId : String) (a : ℚ)
    (hamt : r.amount = some a) (hle : a ≤ 0) :
    Transaction.validate r = none ∧
    create_transaction_endpoint coll r newId = (coll, none) := by
  have hv : Transaction.validate r = none := by
    simp only [Transaction.validate, hamt]
    split
    · cases hd : r.date with
      | none => rfl
      | some d => simp [not_lt.mpr hle]
    · rfl
  exact ⟨hv, by simp [create_transaction_endpoint, hv]⟩

/-- C2 witness: amount −3 on an otherwise complete payload is rejected and
creates nothing. -/
theorem c2_witness :
    (RawTransaction.mk (some "expense") (some (-3)) none none
        (some "2024-01-15")).amount = some (-3) ∧ ((-3 : ℚ) ≤ 0) ∧
    create_transaction_endpoint []
        (RawTransaction.mk (some "expense") (some (-3)) none none
          (some "2024-01-15")) "id1" = ([], none) :=
  ⟨rfl, by norm_num,
    (c2_nonpositive_amount_rejected_before_storage [] _ "id1" (-3) rfl
      (by norm_num)).2⟩

/-- C3: for every budget creation request whose month is outside 1–12 or
whose year is outside 2000–3000, pydantic validation rejects the payload
(schemas.py lines 28–29) and no document is created. -/
theorem c3_budget_out_of_range_rejected
    (coll : List Doc) (r : RawBudget) (newId : String)
    (hbad : (∃ m, r.month = some m ∧ (m < 1 ∨ 12 < m)) ∨
            (∃ y, r.year = some y ∧ (y < 2000 ∨ 3000 < y))) :
    Budget.validate r = none ∧
    create_budget_endpoint coll r newId = (coll, none) := by
  have hv : Budget.validate r = none := by
    unfold Budget.validate
    rcases hbad with ⟨m, hm, hmr⟩ | ⟨y, hy, hyr⟩
    · rw [hm]
      cases hy2 : r.year with
      | none => rfl
      | some y =>
          cases ha : r.amount with
          | none => rfl
          | some a =>
              have hno : ¬(1 ≤ m ∧ m ≤ 12 ∧ 2000 ≤ y ∧ y ≤ 3000 ∧
                  0 ≤ a) := by
                rintro ⟨h1, h2, -⟩
                omega
              simp [hno]
    · cases hm2 : r.month with
      | none => rfl
      | some m =>
          rw [hy]
          cases ha : r.amount with
          | none => rfl
          | some a =>
              have hno : ¬(1 ≤ m ∧ m ≤ 12 ∧ 2000 ≤ y ∧ y ≤ 3000 ∧
                  0 ≤ a) := by
                rintro ⟨-, -, h3, h4, -⟩
                omega
              simp [hno]
  exact ⟨hv, by simp [create_budget_endpoint, hv]⟩

/-- C3 witness: month 13 is rejected; year 1999 is rejected. -/
theorem c3_witness :
    ((∃ m, (RawBudget.mk (some 13) (some 2024) (some 100) none).month =
        some m ∧ (m < 1 ∨ 12 < m)) ∨
      (∃ y, (RawBudget.mk (some 13) (some 2024) (some 100) none).year =
        some y ∧ (y < 2000 ∨ 3000 < y))) ∧
    create_budget_endpoint [] (RawBudget.mk (some 13) (some 2024) (some 100)
      none) "b1" = ([], none) ∧
    create_budget_endpoint [] (RawBudget.mk (some 5) (some 1999) (some 100)
      none) "b2" = ([], none) :=
  ⟨Or.inl ⟨13, rfl, by norm_num⟩,
    (c3_budget_out_of_range_rejected [] _ "b1"
      (Or.inl ⟨13, rfl, by norm_num⟩)).2,
    (c3_budget_out_of_range_rejected [] _ "b2"
      (Or.inr ⟨1999, rfl, by norm_num⟩)).2⟩

/-- C4: a transaction list with limit N returns at most N items; a limit
above 200 or below 1 is a validation error; an absent limit defaults
to 50. -/
theorem c4_transaction_limit_bounds :
    (∀ (coll : List Doc) (limit : Int) (category txType : Option String),
        (list_transactions coll limit category txType).length ≤
          limit.toNat) ∧
    (∀ (coll : List Doc) (month year : Option Int)
        (category : Option String) (limit : Int),
        (list_budgets coll month year category limit).length ≤
          limit.toNat) ∧
    (∀ (coll : List Doc) (limit : Int),
        (list_categories coll limit).length ≤ limit.toNat) ∧
    (∀ (coll : List Doc) (n : Int) (category txType : Option String),
        (n < 1 ∨ 200 < n) →
        list_transactions_endpoint coll (some n) category txType = none) ∧
    (∀ (coll : List Doc) (category txType : Option String),
        tx_type_ok txType = true →
        list_transactions_endpoint coll none category txType =
          some (list_transactions coll 50 category txType)) := by
  refine ⟨?_, ?_, ?_, ?_, ?_⟩
  · intro coll limit category txType
    simp only [list_transactions, get_documents, List.length_map,
      List.length_take]
    exact Nat.min_le_left _ _
  · intro coll month year category limit
    simp only [list_budgets, get_documents, List.length_map,
      List.length_take]
    exact Nat.min_le_left _ _
  · intro coll limit
    simp only [list_categories, get_documents, List.length_map,
      List.length_take]
    exact Nat.min_le_left _ _
  · intro coll n category txType h
    have hno : ¬(1 ≤ n ∧ n ≤ 200 ∧ tx_type_ok txType = true) := by
      rintro ⟨h1, h2, -⟩
      rcases h with h | h <;> omega
    simp only [list_transactions_endpoint, Option.getD_some]
    rw [if_neg hno]
  · intro coll category txType ht
    simp only [list_transactions_endpoint, Option.getD_none]
    rw [if_pos]
    exact ⟨by norm_num, by norm_num, ht⟩

/-- C4 witness: limit 5 bounds the result length; limits 300 and 0 are
rejected; an absent limit lists with 50. -/
theorem c4_witness :
    (list_transactions [] 5 none none).length ≤ (5 : Int).toNat ∧
    ((300 : Int) < 1 ∨ 200 < (300 : Int)) ∧
    list_transactions_endpoint [] (some 300) none none = none ∧
    list_transactions_endpoint [] (some 0) none none = none ∧
    tx_type_ok none = true ∧
    list_transactions_endpoint [] none none none =
      some (list_transactions [] 50 none none) :=
  ⟨c4_transaction_limit_bounds.1 [] 5 none none,
    by norm_num,
    c4_transaction_limit_bounds.2.2.2.1 [] 300 none none (by norm_num),
    c4_transaction_limit_bounds.2.2.2.1 [] 0 none none (by norm_num),
    rfl,
    c4_transaction_limit_bounds.2.2.2.2 [] none none rfl⟩

/-- C6: `GET /test` answers HTTP 200 for every store state; a missing
handle is reported in the body, and an exception raised by the
collection-name sample is reported as an in-body message truncated to 80
characters. -/
theorem c6_diagnostics_always_200 :
    (∀ (db : Option DbHandle) (urlSet : Bool),
        (test_database db urlSet).1 = 200) ∧
    (∀ (urlSet : Bool),
        (test_database none urlSet).2.database =
          "⚠️ Available but not initialized") ∧
    (∀ (name : Option String) (e : String) (urlSet : Bool),
        (test_database (some ⟨name, Except.error e⟩) urlSet).2.database =
          "⚠️ Connected but Error: " ++ e.take 80 ∧
        (e.take 80).length ≤ 80) := by
  refine ⟨?_, ?_, ?_⟩
  · intro db urlSet
    rcases db with - | ⟨name, lc⟩
    · rfl
    · cases lc <;> rfl
  · intro urlSet
    rfl
  · intro name e urlSet
    exact ⟨rfl, string_take_length_le e 80⟩

/-- C7 counterexample: the transaction list query parameter is bound by
the handler argument name `tx_type` (main.py line 93 declares no alias), so
a request supplying `type=bogus` is NOT rejected: the unknown key is
ignored and the unfiltered list is returned. -/
theorem c7_counterexample :
    list_transactions_http [] [("type", "bogus")] =
      some (list_transactions [] 50 none none) ∧
    list_transactions_http [] [("type", "bogus")] ≠ none := by
  decide

/-- C7 amended: the transaction list endpoint exposes the query parameter
`tx_type` (not `type`) whose value must be "expense" or "income"; every
request supplying any other value for `tx_type` is rejected with a
validation error, while the two legal values are accepted. -/
theorem c7_tx_type_enumeration :
    (∀ (coll : List Doc) (qs : List (String × String)) (t : String),
        qs_get qs "tx_type" = some t → t ≠ "expense" → t ≠ "income" →
        list_transactions_http coll qs = none) ∧
    (∀ (coll : List Doc),
        list_transactions_http coll [("tx_type", "expense")] =
          some (list_transactions coll 50 none (some "expense")) ∧
        list_transactions_http coll [("tx_type", "income")] =
          some (list_transactions coll 50 none (some "income"))) := by
  refine ⟨?_, ?_⟩
  · intro coll qs t ht h1 h2
    have hok : tx_type_ok (some t) = false := by
      simp [tx_type_ok, h1, h2]
    have hrej : ∀ limitQ : Option Int,
        list_transactions_endpoint coll limitQ (qs_get qs "category")
          (qs_get qs "tx_type") = none := by
      intro limitQ
      rw [ht]
      simp [list_transactions_endpoint, hok]
    simp only [list_transactions_http]
    cases hs : qs_get qs "limit" with
    | none => exact hrej none
    | some s =>
        show (match s.toInt? with
          | some n =>
              list_transactions_endpoint coll (some n)
                (qs_get qs "category") (qs_get qs "tx_type")
          | none => none) = none
        cases s.toInt? with
        | none => rfl
        | some n => exact hrej (some n)
  · intro coll
    exact ⟨rfl, rfl⟩

/-- C7 witness: the value "transfer" for `tx_type` is rejected; "expense"
and "income" are accepted. -/
theorem c7_witness :
    qs_get [("tx_type", "transfer")] "tx_type" = some "transfer" ∧
    list_transactions_http [] [("tx_type", "transfer")] = none ∧
    list_transactions_http [] [("tx_type", "expense")] =
      some (list_transactions [] 50 none (some "expense")) :=
  ⟨rfl,
    c7_tx_type_enumeration.1 [] [("tx_type", "transfer")] "transfer" rfl
      (by decide) (by decide),
    (c7_tx_type_enumeration.2 []).1⟩

/-- A transaction accepted by validation carries one of the two literal
types. -/
theorem validate_type_cases (r : RawTransaction) (t : Transaction)
    (h : Transaction.validate r = some t) :
    t.type = "expense" ∨ t.type = "income" := by
  unfold Transaction.validate at h
  split at h
  · rename_i hty
    cases ha : r.amount with
    | none =>
        rw [ha] at h
        cases r.date <;> simp at h
    | some a =>
        cases hd : r.date with
        | none =>
            rw [ha, hd] at h
            simp at h
        | some d =>
            rw [ha, hd] at h
            have h' : (if 0 < a then
                some (Transaction.mk (r.type.getD "expense") a r.category
                  r.note d)
              else none) = some t := h
            by_cases hpos : 0 < a
            · rw [if_pos hpos] at h'
              obtain rfl := Option.some.inj h'
              exact hty
            · rw [if_neg hpos] at h'
              simp at h'
  · simp at h

/-- The freshly persisted transaction document satisfies the exact-match
filter built from its own category and type. -/
theorem serialize_matches_tx_filter (t : Transaction) (newId : String) :
    matchesFilter (tx_filter t.category (some t.type))
      (("_id", Value.oid newId) :: t.serialize) = true := by
  cases hc : t.category with
  | none =>
      by_cases ht : t.type = "" <;>
        simp [tx_filter, ht, matchesFilter, Transaction.serialize, optStr,
          List.lookup]
  | some c =>
      by_cases hce : c = "" <;> by_cases ht : t.type = "" <;>
        simp [tx_filter, hc, hce, ht, matchesFilter, Transaction.serialize,
          optStr, List.lookup]

/-- The `type=income` entry of the transaction filter. -/
theorem type_income_mem_tx_filter (category : Option String) :
    ("type", Value.str "income") ∈ tx_filter category (some "income") := by
  cases category with
  | none => simp [tx_filter]
  | some c => by_cases hc : c = "" <;> simp [tx_filter, hc]

/-- C1: a valid transaction payload, created and then listed with the
matching category/type filter (within the limit), shows up as a document
whose fields equal the payload plus a generated textual `id`, with the
store-internal `_id` field absent. -/
theorem c1_transaction_create_then_list_roundtrip
    (coll : List Doc) (r : RawTransaction) (t : Transaction)
    (newId : String) (limit : Int)
    (hval : Transaction.validate r = some t)
    (hlim : 1 ≤ limit ∧ limit ≤ 200)
    (hroom : (coll.filter (matchesFilter
        (tx_filter t.category (some t.type)))).length < limit.toNat) :
    list_transactions_endpoint (create_transaction_endpoint coll r newId).1
        (some limit) t.category (some t.type) =
      some (list_transactions
        (coll ++ [("_id", Value.oid newId) :: t.serialize]) limit
        t.category (some t.type)) ∧
    t.listedDoc newId ∈ list_transactions
        (coll ++ [("_id", Value.oid newId) :: t.serialize]) limit
        t.category (some t.type) ∧
    List.lookup "id" (t.listedDoc newId) = some (Value.str newId) ∧
    List.lookup "_id" (t.listedDoc newId) = none := by
  have htxok : tx_type_ok (some t.type) = true := by
    rcases validate_type_cases r t hval with h | h <;> simp [tx_type_ok, h]
  refine ⟨?_, ?_, ?_, ?_⟩
  · simp only [create_transaction_endpoint, hval, create_transaction,
      create_document, list_transactions_endpoint, Option.getD_some]
    rw [if_pos ⟨hlim.1, hlim.2, htxok⟩]
  · simp only [list_transactions, get_documents, List.filter_append]
    have hone : List.filter
        (matchesFilter (tx_filter t.category (some t.type)))
        [("_id", Value.oid newId) :: t.serialize] =
        [("_id", Value.oid newId) :: t.serialize] := by
      simp [List.filter, serialize_matches_tx_filter]
    rw [hone]
    exact List.mem_map.mpr
      ⟨("_id", Value.oid newId) :: t.serialize,
        mem_take_append_last _ _ _ hroom,
        normalizeDoc_created_transaction t newId⟩
  · simp [Transaction.listedDoc, List.lookup]
  · simp [Transaction.listedDoc, List.lookup]

/-- C1 witness: a concrete income transaction round-trips through create
and filtered list. -/
theorem c1_witness :
    Transaction.validate
        (RawTransaction.mk (some "income") (some 5) (some "food") none
          (some "2024-01-15")) =
      some (Transaction.mk "income" 5 (some "food") none "2024-01-15") ∧
    ((1 : Int) ≤ 50 ∧ (50 : Int) ≤ 200) ∧
    (([] : List Doc).filter (matchesFilter
        (tx_filter (some "food") (some "income")))).length <
      (50 : Int).toNat ∧
    (Transaction.mk "income" 5 (some "food") none
        "2024-01-15").listedDoc "abc123" ∈
      list_transactions
        ([] ++ [("_id", Value.oid "abc123") ::
          (Transaction.mk "income" 5 (some "food") none
            "2024-01-15").serialize]) 50 (some "food") (some "income") :=
  ⟨by decide, ⟨by norm_num, by norm_num⟩, by decide,
    (c1_transaction_create_then_list_roundtrip []
      (RawTransaction.mk (some "income") (some 5) (some "food") none
        (some "2024-01-15"))
      (Transaction.mk "income" 5 (some "food") none "2024-01-15")
      "abc123" 50 (by decide) ⟨by norm_num, by norm_num⟩ (by decide)).2.1⟩

/-- C5: filtering by `type=income` returns only documents whose stored type
is "income"; with no filter, a store holding one expense and one income
document yields both (within the limit). -/
theorem c5_income_filter_soundness :
    (∀ (coll : List Doc) (limit : Int) (category : Option String)
        (d : Doc),
        d ∈ list_transactions coll limit category (some "income") →
        List.lookup "type" d = some (Value.str "income")) ∧
    list_transactions
        [[("_id", Value.oid "a1"), ("type", Value.str "expense")],
         [("_id", Value.oid "b2"), ("type", Value.str "income")]]
        50 none none =
      [[("type", Value.str "expense"), ("id", Value.str "a1")],
       [("type", Value.str "income"), ("id", Value.str "b2")]] := by
  refine ⟨?_, by decide⟩
  intro coll limit category d hd
  simp only [list_transactions, List.mem_map] at hd
  obtain ⟨d₀, hd₀, rfl⟩ := hd
  simp only [get_documents] at hd₀
  have hd₀' := List.take_subset _ _ hd₀
  have hm := (List.mem_filter.mp hd₀').2
  have hl : List.lookup "type" d₀ = some (Value.str "income") :=
    matchesFilter_lookup hm (type_income_mem_tx_filter category)
  rw [lookup_normalizeDoc d₀ "type" (by decide) (by decide), hl]
  rfl

/-- C5 witness: a store holding an income document lists it under the
income filter, and its type field reads "income". -/
theorem c5_witness :
    ([("type", Value.str "income"), ("id", Value.str "b2")] ∈
      list_transactions
        [[("_id", Value.oid "b2"), ("type", Value.str "income")]]
        50 none (some "income")) ∧
    List.lookup "type"
        [("type", Value.str "income"), ("id", Value.str "b2")] =
      some (Value.str "income") :=
  ⟨by decide,
    c5_income_filter_soundness.1
      [[("_id", Value.oid "b2"), ("type", Value.str "income")]] 50 none
      [("type", Value.str "income"), ("id", Value.str "b2")] (by decide)⟩

/-- C8: a category created with `color` absent lists back with a null
`color`, not a default string. -/
theorem c8_category_color_absent_roundtrip
    (coll : List Doc) (r : RawCategory) (c : Category) (newId : String)
    (limit : Int)
    (hval : Category.validate r = some c) (hcol : r.color = none)
    (hroom : coll.length < limit.toNat) :
    c.listedDoc newId ∈ list_categories
        (create_category_endpoint coll r newId).1 limit ∧
    List.lookup "color" (c.listedDoc newId) = some Value.null ∧
    List.lookup "id" (c.listedDoc newId) = some (Value.str newId) := by
  have hcc : c.color = none := by
    cases hn : r.name with
    | none =>
        rw [Category.validate, hn] at hval
        exact Option.noConfusion hval
    | some n =>
        rw [Category.validate, hn] at hval
        have hval' : some (Category.mk n r.color) = some c := hval
        obtain rfl := Option.some.inj hval'
        exact hcol
  refine ⟨?_, ?_, ?_⟩
  · simp only [create_category_endpoint, hval, create_document,
      list_categories, get_documents]
    have hall : List.filter (matchesFilter [])
        (coll ++ [("_id", Value.oid newId) :: c.serialize]) =
        coll ++ [("_id", Value.oid newId) :: c.serialize] :=
      List.filter_eq_self.mpr (fun a _ => rfl)
    rw [hall]
    have hroom' : coll.length < limit.toNat := hroom
    exact List.mem_map.mpr
      ⟨("_id", Value.oid newId) :: c.serialize,
        mem_take_append_last _ _ _ hroom',
        normalizeDoc_created_category c newId⟩
  · simp [Category.listedDoc, List.lookup, hcc, optStr]
  · simp [Category.listedDoc, List.lookup]

/-- C8 witness: creating the category "Food" without a color and listing
with the default limit 100 returns it with a null color. -/
theorem c8_witness :
    Category.validate (RawCategory.mk (some "Food") none) =
      some (Category.mk "Food" none) ∧
    (RawCategory.mk (some "Food") none).color = none ∧
    ([] : List Doc).length < (100 : Int).toNat ∧
    (Category.mk "Food" none).listedDoc "c1" ∈
      list_categories
        (create_category_endpoint [] (RawCategory.mk (some "Food") none)
          "c1").1 100 :=
  ⟨by decide, rfl, by decide,
    (c8_category_color_absent_roundtrip []
      (RawCategory.mk (some "Food") none) (Category.mk "Food" none)
      "c1" 100 (by decide) rfl (by decide)).1⟩

/-- C9: an empty-string `category` is dropped from the transaction filter
(truthiness test) but forwarded verbatim as an exact-match filter by the
budget list handler, whose results then all carry the empty-string
category. -/
theorem c9_empty_category_asymmetry :
    (∀ (coll : List Doc) (limit : Int) (txType : Option String),
        list_transactions coll limit (some "") txType =
          list_transactions coll limit none txType) ∧
    tx_filter (some "") none = [] ∧
    budget_filter none none (some "") = [("category", Value.str "")] ∧
    (∀ (coll : List Doc) (limit : Int) (d : Doc),
        d ∈ list_budgets coll none none (some "") limit →
        List.lookup "category" d = some (Value.str "")) := by
  refine ⟨?_, rfl, rfl, ?_⟩
  · intro coll limit txType
    have hf : tx_filter (some "") txType = tx_filter none txType := by
      cases txType <;> simp [tx_filter]
    simp [list_transactions, hf]
  · intro coll limit d hd
    simp only [list_budgets, List.mem_map] at hd
    obtain ⟨d₀, hd₀, rfl⟩ := hd
    simp only [get_documents] at hd₀
    have hd₀' := List.take_subset _ _ hd₀
    have hm := (List.mem_filter.mp hd₀').2
    have hl : List.lookup "category" d₀ = some (Value.str "") :=
      matchesFilter_lookup hm (by simp [budget_filter])
    rw [lookup_normalizeDoc d₀ "category" (by decide) (by decide), hl]
    rfl

/-- C9 witness: a stored budget with empty-string category is returned by
the empty-string filter and reads back that empty category. -/
theorem c9_witness :
    ([("category", Value.str ""), ("id", Value.str "x1")] ∈
      list_budgets [[("_id", Value.oid "x1"),
        ("category", Value.str "")]] none none (some "") 100) ∧
    List.lookup "category"
        [("category", Value.str ""), ("id", Value.str "x1")] =
      some (Value.str "") :=
  ⟨by decide,
    c9_empty_category_asymmetry.2.2.2
      [[("_id", Value.oid "x1"), ("category", Value.str "")]] 100
      [("category", Value.str ""), ("id", Value.str "x1")] (by decide)⟩

/-- C10: the budgets and categories list limits accept every integer
(including 0 and negatives) and forward it unchanged to the storage query,
defaulting to 100 when absent — unlike the transactions limit, which
rejects values outside 1–200. -/
theorem c10_unvalidated_budget_category_limits :
    (∀ n : Int, budgets_limit (some n) = n) ∧
    budgets_limit none = 100 ∧
    (∀ n : Int, categories_limit (some n) = n) ∧
    categories_limit none = 100 ∧
    (∀ (coll : List Doc) (month year : Option Int)
        (category : Option String) (n : Int),
        list_budgets_endpoint coll month year category (some n) =
          (get_documents coll (budget_filter month year category) n).map
            normalizeDoc) ∧
    (∀ (coll : List Doc) (n : Int),
        list_categories_endpoint coll (some n) =
          (get_documents coll [] n).map normalizeDoc) ∧
    (∀ (coll : List Doc) (category txType : Option String) (n : Int),
        (n < 1 ∨ 200 < n) →
        list_transactions_endpoint coll (some n) category txType = none) := by
  refine ⟨fun n => rfl, rfl, fun n => rfl, rfl,
    fun coll m y c n => rfl, fun coll n => rfl, ?_⟩
  intro coll category txType n h
  have hno : ¬(1 ≤ n ∧ n ≤ 200 ∧ tx_type_ok txType = true) := by
    rintro ⟨h1, h2, -⟩
    rcases h with h | h <;> omega
  simp only [list_transactions_endpoint, Option.getD_some]
  rw [if_neg hno]

/-- C10 witness: −5 and 0 flow through the budget/category limits while the
transactions endpoint rejects 0. -/
theorem c10_witness :
    budgets_limit (some (-5)) = -5 ∧
    categories_limit (some 0) = 0 ∧
    list_budgets_endpoint [] none none none (some (-5)) =
      (get_documents [] (budget_filter none none none) (-5)).map
        normalizeDoc ∧
    ((0 : Int) < 1 ∨ 200 < (0 : Int)) ∧
    list_transactions_endpoint [] (some 0) none none = none :=
  ⟨c10_unvalidated_budget_category_limits.1 (-5),
    c10_unvalidated_budget_category_limits.2.2.1 0,
    c10_unvalidated_budget_category_limits.2.2.2.2.1 [] none none none (-5),
    by norm_num,
    c10_unvalidated_budget_category_limits.2.2.2.2.2.2 [] none none 0
      (by norm_num)⟩

end BudgetPlanner
